import Mathlib

/-!
Shallow embedding of the pages-cms build-status feature: the server status
endpoint (GET /api/[owner]/[repo]/[branch]/status) and the client
BuildStatus poller component, together with proofs of the specified
properties of the reduction, the response shapes and the rendering rules.
-/

namespace PagesCms

/-- A check run as returned by the upstream checks API
(`checkRunsResponse.data.check_runs[i]`).  `status` is
queued / in_progress / completed, `conclusion` is null while incomplete. -/
structure ApiCheckRun where
  id : Nat
  name : String
  status : String
  conclusion : Option String
  started_at : Option String
  completed_at : Option String
  details_url : Option String
  html_url : String
deriving Repr, DecidableEq

/-- A commit status as returned by the combined-status API
(`statusResponse.data.statuses[i]`). -/
structure ApiCommitStatus where
  id : Nat
  state : String
  description : Option String
  context : String
  target_url : Option String
  created_at : String
deriving Repr, DecidableEq

/-- The checks listing response body: the (page-capped) list of check runs
plus the upstream `total_count` field, which counts all check runs for the
ref, not just the returned page. -/
structure CheckRunsData where
  check_runs : List ApiCheckRun
  total_count : Nat
deriving Repr, DecidableEq

/-- The combined-status response body: the overall `state` plus the
individual statuses. -/
structure CombinedStatusData where
  state : String
  statuses : List ApiCommitStatus
deriving Repr, DecidableEq

/-- `checkRuns.some(run => run.conclusion === "failure" || run.conclusion
=== "cancelled" || run.conclusion === "timed_out")`. -/
def hasFailure (checkRuns : List ApiCheckRun) : Bool :=
  checkRuns.any fun run =>
    run.conclusion = some "failure" || run.conclusion = some "cancelled" ||
      run.conclusion = some "timed_out"

/-- `checkRuns.some(run => run.status === "queued" || run.status ===
"in_progress")`. -/
def hasPending (checkRuns : List ApiCheckRun) : Bool :=
  checkRuns.any fun run => run.status = "queued" || run.status = "in_progress"

/-- First reduction pass: starting from ("success", "success"), inspect the
check runs (only when the list is non-empty): any failing conclusion sets
both fields to "failure", else any queued / in_progress status sets both to
"pending". -/
def checkRunsPass (checkRuns : List ApiCheckRun) : String × String :=
  if checkRuns.length > 0 then
    if hasFailure checkRuns then ("failure", "failure")
    else if hasPending checkRuns then ("pending", "pending")
    else ("success", "success")
  else ("success", "success")

/-- Second reduction pass: the combined-status state overrides the pair
produced by the check-run pass — "pending" forces both to "pending",
"failure" or "error" forces both to "failure", anything else leaves the
pair unchanged. -/
def commitStatusPass (state : String) (st : String × String) : String × String :=
  if state = "pending" then ("pending", "pending")
  else if state = "failure" || state = "error" then ("failure", "failure")
  else st

/-- The full reduction computing (overallStatus, overallConclusion) from
the check runs and the combined-status state, exactly as the route handler
does. -/
def computeOverall (checkRuns : List ApiCheckRun) (state : String) : String × String :=
  commitStatusPass state (checkRunsPass checkRuns)

/-- A check run as serialized in the response body (camel-cased field
renaming of `ApiCheckRun`, no semantic change). -/
structure CheckRunView where
  id : Nat
  name : String
  status : String
  conclusion : Option String
  startedAt : Option String
  completedAt : Option String
  detailsUrl : Option String
  htmlUrl : String
deriving Repr, DecidableEq

/-- A commit status as serialized in the response body. -/
structure CommitStatusView where
  id : Nat
  state : String
  description : Option String
  context : String
  targetUrl : Option String
  createdAt : String
deriving Repr, DecidableEq

/-- The `data` object of a successful response. -/
structure StatusData where
  sha : String
  overallStatus : String
  overallConclusion : String
  checkRuns : List CheckRunView
  commitStatuses : List CommitStatusView
  totalCount : Nat
deriving Repr, DecidableEq

/-- The per-run field renaming in the success payload. -/
def mapCheckRun (run : ApiCheckRun) : CheckRunView :=
  { id := run.id, name := run.name, status := run.status,
    conclusion := run.conclusion, startedAt := run.started_at,
    completedAt := run.completed_at, detailsUrl := run.details_url,
    htmlUrl := run.html_url }

/-- The per-status field renaming in the success payload. -/
def mapCommitStatus (status : ApiCommitStatus) : CommitStatusView :=
  { id := status.id, state := status.state,
    description := status.description, context := status.context,
    targetUrl := status.target_url, createdAt := status.created_at }

/-- Builds the `data` object of a successful response from the two upstream
response bodies: the reduced pair, the renamed records and
`totalCount = checkRunsResponse.data.total_count +
statusResponse.data.statuses.length`. -/
def buildStatusData (sha : String) (cr : CheckRunsData)
    (cs : CombinedStatusData) : StatusData :=
  let overall := computeOverall cr.check_runs cs.state
  { sha := sha, overallStatus := overall.1, overallConclusion := overall.2,
    checkRuns := cr.check_runs.map mapCheckRun,
    commitStatuses := cs.statuses.map mapCommitStatus,
    totalCount := cr.total_count + cs.statuses.length }

/-- The three response shapes the handler can produce: an empty body with a
status code (`new Response(null, {status})`), an error body
`{status:"error", message, details?}` with a status code, or a success body
`{status:"success", data}` with a status code. -/
inductive ApiResponse where
  | empty (status : Nat)
  | errorBody (status : Nat) (message : String) (details : Option String)
  | successBody (status : Nat) (data : StatusData)
deriving Repr, DecidableEq

/-- A thrown JavaScript `Error`: its `message` and `stack`. -/
structure JsError where
  message : String
  stack : String
deriving Repr, DecidableEq

/-- The catch block: HTTP 500 with `message: error.message || "Unknown
error occurred"` and `details: process.env.NODE_ENV === "development" ?
error.stack : undefined`. -/
def errorResponse (nodeEnv : String) (e : JsError) : ApiResponse :=
  ApiResponse.errorBody 500
    (if e.message = "" then "Unknown error occurred" else e.message)
    (if nodeEnv = "development" then some e.stack else none)

/-- The environment a single request executes against: whether `getAuth`
yields a session, what `getToken` yields, and the outcome of each upstream
call (a value, or the `Error` it throws), plus `process.env.NODE_ENV`. -/
structure Env where
  session : Bool
  token : Option String
  tokenErrorStack : String
  branch : Except JsError String
  checkRuns : Except JsError CheckRunsData
  combinedStatus : Except JsError CombinedStatusData
  nodeEnv : String

/-- The route handler: 401 with empty body when there is no session;
otherwise any missing token (`throw new Error("Token not found")`) or any
upstream failure falls to the catch block yielding a 500 error body, and
only when all calls succeed a 200 success body is built. -/
def GET (env : Env) : ApiResponse :=
  if env.session = false then ApiResponse.empty 401
  else
    match env.token with
    | none => errorResponse env.nodeEnv ⟨"Token not found", env.tokenErrorStack⟩
    | some _ =>
      match env.branch with
      | Except.error e => errorResponse env.nodeEnv e
      | Except.ok sha =>
        match env.checkRuns with
        | Except.error e => errorResponse env.nodeEnv e
        | Except.ok cr =>
          match env.combinedStatus with
          | Except.error e => errorResponse env.nodeEnv e
          | Except.ok cs => ApiResponse.successBody 200 (buildStatusData sha cr cs)

/-! ## Client-side BuildStatus component -/

/-- The `BuildStatusData` interface of the client component; the optional
`permissionError` flag is modelled as a `Bool` (absent = `undefined` is
falsy = `false`). -/
structure BuildStatusData where
  sha : String
  overallStatus : String
  overallConclusion : String
  checkRuns : List CheckRunView
  commitStatuses : List CommitStatusView
  totalCount : Nat
  permissionError : Bool
deriving Repr, DecidableEq

/-- The React state the render function reads: `loading`, `error`,
`buildStatus`. -/
structure ComponentState where
  loading : Bool
  error : Option String
  buildStatus : Option BuildStatusData
deriving Repr, DecidableEq

/-- The combined state update performed on a successful fetch whose payload
is marked success: `setError(null)` (at the start of the try block),
`setBuildStatus(data.data)`, and `setLoading(false)` in the finally block. -/
def receiveSuccess (st : ComponentState) (d : BuildStatusData) : ComponentState :=
  { st with loading := false, error := none, buildStatus := some d }

/-- What the component renders: the loading placeholder, the empty
fixed-height spacer div, nothing at all (`return null`), or the status
badge. -/
inductive Rendered where
  | loadingBox
  | spacer
  | collapsed
  | badge
deriving Repr, DecidableEq

/-- The component's early-return chain: `if (loading && !buildStatus)` show
the loading box; `if (error || !buildStatus)` show the empty spacer;
`if (buildStatus.totalCount === 0 || buildStatus.permissionError)` return
null; otherwise render the badge. -/
def render (st : ComponentState) : Rendered :=
  if st.loading && st.buildStatus.isNone then Rendered.loadingBox
  else if st.error.isSome || st.buildStatus.isNone then Rendered.spacer
  else
    match st.buildStatus with
    | some b =>
      if b.totalCount = 0 || b.permissionError then Rendered.collapsed
      else Rendered.badge
    | none => Rendered.spacer

/-- The observable outcome of one fetch attempt inside `fetchStatus`: a
non-2xx HTTP response (`!response.ok`), a 2xx response whose JSON payload
is not marked success (or any other throw after the ok check), or a
payload marked success carrying the `permissionError` flag or not. -/
inductive FetchResult where
  | httpNotOk
  | jsonNotSuccess
  | fetchOk (permissionError : Bool)
deriving Repr, DecidableEq

/-- One invocation of `fetchStatus` as a transition on the closure-local
`failures` counter (with the component still mounted): when
`failures >= 3` it returns before fetching; a non-2xx response sets
`failures = 999` and throws, and the catch block then runs
`failures = Math.min(failures + 1, 999)`; a non-success payload throws and
only the catch-block increment runs; a success resets `failures = 0` and
then sets `999` when the payload carries `permissionError`. -/
def fetchStep (failures : Nat) (r : FetchResult) : Nat :=
  if failures ≥ 3 then failures
  else
    match r with
    | FetchResult.httpNotOk => min (999 + 1) 999
    | FetchResult.jsonNotSuccess => min (failures + 1) 999
    | FetchResult.fetchOk pe => if pe then 999 else 0

/-- Whether a scheduled invocation of `fetchStatus` actually performs a
network request: the `if (failures >= 3) return` guard. -/
def performsRequest (failures : Nat) : Bool := failures < 3

/-- JavaScript `completedAt || startedAt` on nullable strings: `null` and
the empty string are falsy. -/
def jsOrTimestamp (a b : Option String) : Option String :=
  match a with
  | some s => if s = "" then b else some s
  | none => b

/-- Stable insertion of `x` before the first element not strictly more
recent than it, used to model the stable descending sort. -/
def insertDesc (time : String → Int) (x : String) : List String → List String
  | [] => [x]
  | y :: ys => if time y ≤ time x then x :: y :: ys else y :: insertDesc time x ys

/-- `timestamps.sort((a, b) => new Date(b).getTime() - new
Date(a).getTime())`: a stable sort by descending time, with `time`
abstracting `new Date(s).getTime()`. -/
def sortDesc (time : String → Int) (l : List String) : List String :=
  l.foldr (insertDesc time) []

/-- `getMostRecentTimestamp`: map each check run to `completedAt ||
startedAt`, drop the nulls, sort descending by time and take element 0
(`none` when the list is empty). -/
def getMostRecentTimestamp (time : String → Int)
    (checkRuns : List CheckRunView) : Option String :=
  let timestamps :=
    (checkRuns.map fun run => jsOrTimestamp run.completedAt run.startedAt).filterMap id
  (sortDesc time timestamps).head?

/-- Modelled from the spec: the claim's selection rule "(completedAt if
non-null, otherwise startedAt), ignoring runs where both are null" — the
nullish-coalescing reading, which (unlike `||`) keeps a non-null empty
string. Used only to compare the code's function against the claim. -/
def specSelected (checkRuns : List CheckRunView) : List String :=
  checkRuns.filterMap fun run =>
    match run.completedAt with
    | some s => some s
    | none => run.startedAt

/-- Modelled from the spec: "the maximum over all check-runs", by time. -/
def maxByTime (time : String → Int) : List String → Option String
  | [] => none
  | x :: xs =>
    match maxByTime time xs with
    | none => some x
    | some y => if time y ≤ time x then some x else some y

/-- Modelled from the spec: the claimed value of the most-recent-check-run
timestamp. -/
def specMostRecent (time : String → Int) (checkRuns : List CheckRunView) :
    Option String :=
  maxByTime time (specSelected checkRuns)

/-! ## Reduction theorems -/

/-- C1: whenever the combined-status state is "pending", the reduction
yields overallStatus = overallConclusion = "pending" for every list of
check runs, the commit-status override being applied after the check-run
pass. -/
theorem c1_pending_override (checkRuns : List ApiCheckRun) (state : String)
    (h : state = "pending") :
    computeOverall checkRuns state = ("pending", "pending") := by
  subst h
  simp [computeOverall, commitStatusPass]

/-- Witness for C1 at a list containing a failed, a cancelled and a
timed-out check run. -/
theorem c1_pending_override_witness :
    computeOverall
      [⟨1, "build", "completed", some "failure", none, none, none, "u"⟩,
       ⟨2, "lint", "completed", some "cancelled", none, none, none, "u"⟩,
       ⟨3, "test", "completed", some "timed_out", none, none, none, "u"⟩]
      "pending" = ("pending", "pending") :=
  c1_pending_override _ "pending" rfl

/-- C2 counterexample: with an upstream `total_count` of 1 but an empty
`check_runs` page (the listing is page-capped while `total_count` counts
every check run), the response's `totalCount` differs from the number of
returned `checkRuns` entries plus `commitStatuses` entries. -/
theorem c2_counterexample :
    (buildStatusData "abc" ⟨[], 1⟩ ⟨"success", []⟩).totalCount ≠
      (buildStatusData "abc" ⟨[], 1⟩ ⟨"success", []⟩).checkRuns.length +
        (buildStatusData "abc" ⟨[], 1⟩ ⟨"success", []⟩).commitStatuses.length := by
  decide

/-- C2 amended: `totalCount` is the upstream `total_count` plus the number
of commit statuses, so it equals the number of returned `checkRuns` entries
plus `commitStatuses` entries exactly when `total_count` matches the number
of check runs in the returned page. -/
theorem c2_totalCount (sha : String) (cr : CheckRunsData)
    (cs : CombinedStatusData) (h : cr.total_count = cr.check_runs.length) :
    (buildStatusData sha cr cs).totalCount =
      (buildStatusData sha cr cs).checkRuns.length +
        (buildStatusData sha cr cs).commitStatuses.length := by
  simp [buildStatusData, h]

/-- Witness for C2 amended at a one-run, one-status response. -/
theorem c2_totalCount_witness :
    (buildStatusData "abc"
        ⟨[⟨1, "build", "completed", some "success", none, none, none, "u"⟩], 1⟩
        ⟨"success", [⟨7, "success", none, "ci", none, "t"⟩]⟩).totalCount =
      (buildStatusData "abc"
        ⟨[⟨1, "build", "completed", some "success", none, none, none, "u"⟩], 1⟩
        ⟨"success", [⟨7, "success", none, "ci", none, "t"⟩]⟩).checkRuns.length +
        (buildStatusData "abc"
          ⟨[⟨1, "build", "completed", some "success", none, none, none, "u"⟩], 1⟩
          ⟨"success", [⟨7, "success", none, "ci", none, "t"⟩]⟩).commitStatuses.length :=
  c2_totalCount "abc" _ _ rfl

/-- C3 counterexample: a list holding a queued run alongside a failed run,
with combined-status state "success", reduces to overallStatus "failure",
not "pending" — the failure check has precedence over the pending check. -/
theorem c3_counterexample :
    (([⟨1, "build", "completed", some "failure", none, none, none, "u"⟩,
       ⟨2, "test", "queued", none, none, none, none, "u"⟩] : List ApiCheckRun).any
        fun run => run.status = "queued" || run.status = "in_progress") = true ∧
    (computeOverall
      [⟨1, "build", "completed", some "failure", none, none, none, "u"⟩,
       ⟨2, "test", "queued", none, none, none, none, "u"⟩] "success").1 ≠
      "pending" := by
  refine ⟨by decide, ?_⟩
  decide

/-- C3 amended: when some check run is queued or in progress, no check run
has a failing conclusion, and the combined-status state is "success" (or
"pending", the state the combined-status API reports when there are no
commit statuses), the reduction yields overallStatus "pending". -/
theorem c3_pending_runs (checkRuns : List ApiCheckRun) (state : String)
    (hp : ∃ run ∈ checkRuns, run.status = "queued" ∨ run.status = "in_progress")
    (hf : ∀ run ∈ checkRuns, run.conclusion ≠ some "failure" ∧
      run.conclusion ≠ some "cancelled" ∧ run.conclusion ≠ some "timed_out")
    (hs : state = "success" ∨ state = "pending") :
    (computeOverall checkRuns state).1 = "pending" := by
  have hpb : hasPending checkRuns = true := by
    obtain ⟨run, hmem, hrun⟩ := hp
    simp only [hasPending, List.any_eq_true]
    exact ⟨run, hmem, by rcases hrun with h | h <;> simp [h]⟩
  have hfb : hasFailure checkRuns = false := by
    simp only [hasFailure, List.any_eq_false]
    intro run hmem
    rcases hf run hmem with ⟨h1, h2, h3⟩
    simp [h1, h2, h3]
  have hlen : checkRuns.length > 0 := by
    cases checkRuns with
    | nil => simp [hasPending] at hpb
    | cons a l => simp
  have hcr : checkRunsPass checkRuns = ("pending", "pending") := by
    simp [checkRunsPass, hlen, hfb, hpb]
  rcases hs with h | h <;>
    simp [computeOverall, hcr, commitStatusPass, h]

/-- Witness for C3 amended at a queued run with state "success". -/
theorem c3_pending_runs_witness :
    (computeOverall [⟨2, "test", "queued", none, none, none, none, "u"⟩]
      "success").1 = "pending" :=
  c3_pending_runs _ "success"
    ⟨⟨2, "test", "queued", none, none, none, none, "u"⟩, by simp, by simp⟩
    (by intro run hmem; simp at hmem; simp [hmem]) (Or.inl rfl)

/-- C5: the reduced pair always lies in {"success", "pending", "failure"}
in both components, and the later commit-status pass never maps a pair
already set to "pending" or "failure" back to "success" in either
component. -/
theorem c5_invariant (checkRuns : List ApiCheckRun) (state : String) :
    ((computeOverall checkRuns state).1 = "success" ∨
      (computeOverall checkRuns state).1 = "pending" ∨
      (computeOverall checkRuns state).1 = "failure") ∧
    ((computeOverall checkRuns state).2 = "success" ∨
      (computeOverall checkRuns state).2 = "pending" ∨
      (computeOverall checkRuns state).2 = "failure") ∧
    (commitStatusPass state ("pending", "pending")).1 ≠ "success" ∧
    (commitStatusPass state ("pending", "pending")).2 ≠ "success" ∧
    (commitStatusPass state ("failure", "failure")).1 ≠ "success" ∧
    (commitStatusPass state ("failure", "failure")).2 ≠ "success" := by
  unfold computeOverall commitStatusPass checkRunsPass
  split_ifs <;> simp_all

/-- C6: whenever some check run concluded failure, cancelled or timed_out
and the combined-status state is not "pending", the reduction yields
overallConclusion "failure". -/
theorem c6_failure (checkRuns : List ApiCheckRun) (state : String)
    (hf : ∃ run ∈ checkRuns, run.conclusion = some "failure" ∨
      run.conclusion = some "cancelled" ∨ run.conclusion = some "timed_out")
    (hs : state ≠ "pending") :
    (computeOverall checkRuns state).2 = "failure" := by
  have hfb : hasFailure checkRuns = true := by
    obtain ⟨run, hmem, hrun⟩ := hf
    simp only [hasFailure, List.any_eq_true]
    exact ⟨run, hmem, by rcases hrun with h | h | h <;> simp [h]⟩
  have hlen : checkRuns.length > 0 := by
    cases checkRuns with
    | nil => simp [hasFailure] at hfb
    | cons a l => simp
  have hcr : checkRunsPass checkRuns = ("failure", "failure") := by
    simp [checkRunsPass, hlen, hfb]
  unfold computeOverall commitStatusPass
  rw [hcr]
  split_ifs with h1 h2 <;> simp_all

/-- Witness for C6 at a cancelled run with state "success". -/
theorem c6_failure_witness :
    (computeOverall [⟨5, "ci", "completed", some "cancelled", none, none, none, "u"⟩]
      "success").2 = "failure" :=
  c6_failure _ "success"
    ⟨⟨5, "ci", "completed", some "cancelled", none, none, none, "u"⟩, by simp,
      Or.inr (Or.inl rfl)⟩ (by decide)

/-- C10: the reduction always assigns overallStatus and overallConclusion
the same value. -/
theorem c10_status_eq_conclusion (checkRuns : List ApiCheckRun) (state : String) :
    (computeOverall checkRuns state).1 = (computeOverall checkRuns state).2 := by
  unfold computeOverall commitStatusPass checkRunsPass
  split_ifs <;> rfl

/-! ## Poller and response-shape theorems -/

/-- C4 counterexample: from a fresh counter, a single fetch whose 2xx JSON
payload is not marked success leaves the counter at 1, not at the 999
sentinel, and the next scheduled invocation still performs a request. -/
theorem c4_counterexample :
    fetchStep 0 FetchResult.jsonNotSuccess ≠ 999 ∧
    performsRequest (fetchStep 0 FetchResult.jsonNotSuccess) = true := by
  decide

/-- C4 amended: while polling is live, a non-2xx HTTP response drives the
counter straight to the 999 sentinel, after which no further invocation
performs a request or changes the counter; a non-success JSON payload only
increments the counter by one (capped at 999), so suspension on that path
needs the counter to reach the threshold of 3. -/
theorem c4_http_error_suspends (failures : Nat)
    (h : performsRequest failures = true) :
    fetchStep failures FetchResult.httpNotOk = 999 ∧
    performsRequest 999 = false ∧
    (∀ r : FetchResult,
      fetchStep (fetchStep failures FetchResult.httpNotOk) r =
        fetchStep failures FetchResult.httpNotOk) ∧
    fetchStep failures FetchResult.jsonNotSuccess = min (failures + 1) 999 := by
  have h3 : ¬ failures ≥ 3 := by
    simp only [performsRequest, decide_eq_true_eq] at h
    omega
  have h999 : fetchStep failures FetchResult.httpNotOk = 999 := by
    simp [fetchStep, h3]
  refine ⟨h999, by decide, ?_, by simp [fetchStep, h3]⟩
  intro r
  rw [h999]
  simp [fetchStep]

/-- Witness for C4 amended at a fresh counter. -/
theorem c4_http_error_suspends_witness :
    fetchStep 0 FetchResult.httpNotOk = 999 :=
  (c4_http_error_suspends 0 rfl).1

/-- C7: no session yields exactly an empty-body 401; with a session, a
missing token or any failed upstream call yields a 500 error body; every
error body has status 500 and carries details only in the development
posture; an empty body occurs only as the 401 for a missing session; and a
success body (the only shape with a data field) always has status 200 — so
no partial result is ever returned. -/
theorem c7_responses (env : Env) :
    (env.session = false → GET env = ApiResponse.empty 401) ∧
    (env.session = true →
      env.token = none ∨ (∃ e, env.branch = Except.error e) ∨
        (∃ e, env.checkRuns = Except.error e) ∨
        (∃ e, env.combinedStatus = Except.error e) →
      ∃ m d, GET env = ApiResponse.errorBody 500 m d) ∧
    (∀ c m d, GET env = ApiResponse.errorBody c m d →
      c = 500 ∧ (d ≠ none → env.nodeEnv = "development")) ∧
    (∀ c, GET env = ApiResponse.empty c → c = 401 ∧ env.session = false) ∧
    (∀ c dat, GET env = ApiResponse.successBody c dat → c = 200) := by
  obtain ⟨sess, tok, tstk, br, cr, cs, ne⟩ := env
  cases sess <;> cases tok <;> cases br <;> cases cr <;> cases cs <;>
    simp_all [GET, errorResponse]

/-- Witness for C7: the 401 branch at a concrete sessionless environment,
and the error-body conjunct at a concrete development environment whose
token is missing. -/
theorem c7_responses_witness :
    GET ⟨false, none, "s0", Except.ok "sha", Except.ok ⟨[], 0⟩,
        Except.ok ⟨"success", []⟩, "production"⟩ = ApiResponse.empty 401 ∧
    (500 = 500 ∧ ((some "s2" : Option String) ≠ none →
      "development" = "development")) :=
  ⟨(c7_responses _).1 rfl,
   (c7_responses ⟨true, none, "s2", Except.ok "sha", Except.ok ⟨[], 0⟩,
      Except.ok ⟨"success", []⟩, "development"⟩).2.2.1 500 "Token not found"
      (some "s2") (by decide)⟩

/-- C8: after a successful fetch delivers a result with totalCount 0 or the
permissionError flag set, the component renders nothing. -/
theorem c8_collapse (st : ComponentState) (d : BuildStatusData)
    (h : d.totalCount = 0 ∨ d.permissionError = true) :
    render (receiveSuccess st d) = Rendered.collapsed := by
  rcases h with h | h <;> simp [render, receiveSuccess, h]

/-- Witness for C8 at a zero-count result received while loading. -/
theorem c8_collapse_witness :
    render (receiveSuccess ⟨true, none, none⟩
      ⟨"sha", "success", "success", [], [], 0, false⟩) = Rendered.collapsed :=
  c8_collapse ⟨true, none, none⟩ ⟨"sha", "success", "success", [], [], 0, false⟩
    (Or.inl rfl)

/-! ## Most-recent-timestamp theorems -/

/-- Membership is preserved by a single descending insertion. -/
theorem mem_insertDesc (time : String → Int) (x y : String) (l : List String) :
    y ∈ insertDesc time x l ↔ y = x ∨ y ∈ l := by
  induction l with
  | nil => simp [insertDesc]
  | cons a l ih =>
    simp only [insertDesc]
    split_ifs with h
    · simp [List.mem_cons]
    · simp only [List.mem_cons, ih]
      tauto

/-- Membership is preserved by the descending sort. -/
theorem mem_sortDesc (time : String → Int) (y : String) (l : List String) :
    y ∈ sortDesc time l ↔ y ∈ l := by
  induction l with
  | nil => simp [sortDesc]
  | cons a l ih =>
    simp only [sortDesc, List.foldr] at *
    rw [mem_insertDesc, ih, List.mem_cons]

/-- The descending sort is empty exactly on the empty list. -/
theorem sortDesc_eq_nil_iff (time : String → Int) (l : List String) :
    sortDesc time l = [] ↔ l = [] := by
  cases l with
  | nil => simp [sortDesc]
  | cons a l =>
    simp only [sortDesc, List.foldr]
    constructor
    · intro h
      cases hl : l.foldr (insertDesc time) [] with
      | nil => rw [hl] at h; simp [insertDesc] at h
      | cons b t => rw [hl] at h; simp only [insertDesc] at h; split_ifs at h
    · intro h
      simp at h

/-- The head of the descending sort bounds the time of every element. -/
theorem head_sortDesc_max (time : String → Int) (l : List String) :
    ∀ x, (sortDesc time l).head? = some x → ∀ u ∈ l, time u ≤ time x := by
  induction l with
  | nil => intro x hx; simp [sortDesc] at hx
  | cons a l ih =>
    intro x hx
    simp only [sortDesc, List.foldr] at hx
    cases hsl : l.foldr (insertDesc time) [] with
    | nil =>
      rw [hsl] at hx
      simp only [insertDesc, List.head?] at hx
      intro u hu
      rcases List.mem_cons.mp hu with h | h
      · simp_all
      · exfalso
        have : u ∈ sortDesc time l := (mem_sortDesc time u l).mpr h
        rw [sortDesc, hsl] at this
        simp at this
    | cons b t =>
      have hbmax : ∀ u ∈ l, time u ≤ time b := by
        apply ih
        rw [sortDesc, hsl]
        rfl
      rw [hsl] at hx
      simp only [insertDesc] at hx
      split_ifs at hx with h
      · simp only [List.head?, Option.some_inj] at hx
        subst hx
        intro u hu
        rcases List.mem_cons.mp hu with h' | h'
        · subst h'
          exact le_refl _
        · exact le_trans (hbmax u h') h
      · simp only [List.head?, Option.some_inj] at hx
        subst hx
        intro u hu
        rcases List.mem_cons.mp hu with h' | h'
        · subst h'
          exact le_of_lt (lt_of_not_le h)
        · exact hbmax u h'

/-- C9 counterexample: on a run whose completedAt is the non-null empty
string (falsy for `||` but not nullish for `??`) with a non-null startedAt,
the code's value differs from the claimed maximum of (completedAt ??
startedAt). -/
theorem c9_counterexample :
    getMostRecentTimestamp (fun s => (s.length : Int))
      [⟨1, "build", "completed", some "success", some "2024", some "", none, "u"⟩] ≠
    specMostRecent (fun s => (s.length : Int))
      [⟨1, "build", "completed", some "success", some "2024", some "", none, "u"⟩] := by
  decide

/-- C9 amended: the most-recent timestamp is null exactly when no check run
yields a truthy `completedAt || startedAt` value, and otherwise it is one of
those values and bounds them all in time (the selection uses JavaScript
truthiness: a non-null empty completedAt falls through to startedAt). -/
theorem c9_most_recent (time : String → Int) (checkRuns : List CheckRunView) :
    (getMostRecentTimestamp time checkRuns = none ↔
      ((checkRuns.map fun run =>
        jsOrTimestamp run.completedAt run.startedAt).filterMap id) = []) ∧
    (∀ t, getMostRecentTimestamp time checkRuns = some t →
      t ∈ ((checkRuns.map fun run =>
        jsOrTimestamp run.completedAt run.startedAt).filterMap id) ∧
      ∀ u ∈ ((checkRuns.map fun run =>
        jsOrTimestamp run.completedAt run.startedAt).filterMap id),
        time u ≤ time t) := by
  constructor
  · unfold getMostRecentTimestamp
    rw [List.head?_eq_none_iff, sortDesc_eq_nil_iff]
  · intro t ht
    simp only [getMostRecentTimestamp] at ht
    have hmem : t ∈ sortDesc time
        ((checkRuns.map fun run =>
          jsOrTimestamp run.completedAt run.startedAt).filterMap id) := by
      cases hl : sortDesc time
          ((checkRuns.map fun run =>
            jsOrTimestamp run.completedAt run.startedAt).filterMap id) with
      | nil => rw [hl] at ht; simp at ht
      | cons b l =>
        rw [hl] at ht
        simp only [List.head?, Option.some_inj] at ht
        subst ht
        simp [hl]
    refine ⟨(mem_sortDesc time t _).mp hmem, ?_⟩
    exact head_sortDesc_max time _ t ht

/-- Witness for C9 amended: on two timestamped runs the computed value is a
member of the selected list and time-bounds both entries. -/
theorem c9_most_recent_witness :
    "2024-06" ∈ (([⟨1, "a", "completed", some "success", some "2020", some "2024-06", none, "u"⟩,
        ⟨2, "b", "in_progress", none, some "2021", none, none, "u"⟩] :
        List CheckRunView).map fun run =>
        jsOrTimestamp run.completedAt run.startedAt).filterMap id ∧
    ∀ u ∈ (([⟨1, "a", "completed", some "success", some "2020", some "2024-06", none, "u"⟩,
        ⟨2, "b", "in_progress", none, some "2021", none, none, "u"⟩] :
        List CheckRunView).map fun run =>
        jsOrTimestamp run.completedAt run.startedAt).filterMap id,
      (fun s => (s.length : Int)) u ≤ (fun s => (s.length : Int)) "2024-06" :=
  (c9_most_recent (fun s => (s.length : Int))
    [⟨1, "a", "completed", some "success", some "2020", some "2024-06", none, "u"⟩,
     ⟨2, "b", "in_progress", none, some "2021", none, none, "u"⟩]).2
    "2024-06" (by decide)

end PagesCms
